import Mathlib

/-!
Shallow embedding of the mimir Oracle driver core (Rust bindings over ODPI-C) and proofs
about its value-marshaling and handle-lifecycle layer.

Conventions of the embedding:
* Rust functions become Lean functions; methods that mutate through a raw pointer become
  state-passing functions returning the updated state.
* Machine integers are `Nat`/`Int`; where Rust performs an `as u32` cast or `u32` arithmetic
  that can wrap, the value is reduced `% 2 ^ 32`.
* A raw byte-string pointer (`*const c_char`) is modelled as `Option String`: `none` is the
  null pointer, `some s` is a pointer to the UTF-8 bytes of `s`.  Every write site in the
  sources pairs such a pointer with its exact byte length, so the `(ptr, len)` slice is the
  whole pointed region and `from_utf8_lossy` of it is the string itself.
* Fallible operations return `Except ErrorKind`; a Rust/chrono panic is modelled as `none`
  of an `Option` result.
* The crate's `error` module, its `try_dpi!` macro and the native ODPI-C library are not part
  of the published sources; their definitions below are marked `Modelled from the spec:` and
  follow the specification's wording and the doc comments at the visible call sites.
-/

namespace Mimir

/-- The `u32` modulus: Rust `usize → u32` casts and `u32` arithmetic wrap at this value. -/
def u32Mod : Nat := 2 ^ 32

/-- `util::ODPIStr`: a pointer / length pair for ODPI-C byte strings.  `ptr` models the
pointed-to UTF-8 byte region (`none` = null pointer); `len` is the `u32` length field. -/
structure ODPIStr where
  ptr : Option String
  len : Nat
  deriving DecidableEq

/-- `ODPIStr::new(ptr, len)`. -/
def ODPIStr.new (ptr : Option String) (len : Nat) : ODPIStr :=
  { ptr := ptr, len := len }

/-- `impl Default for ODPIStr`: null pointer, zero length. -/
def ODPIStr.defaultVal : ODPIStr :=
  { ptr := none, len := 0 }

/-- `impl From<&str> for ODPIStr`: points at the string's bytes; the length is the byte
length cast `as u32`. -/
def ODPIStr.fromStr (s : String) : ODPIStr :=
  { ptr := some s, len := s.utf8ByteSize % u32Mod }

/-- `impl From<Option<&str>> for ODPIStr`: `None` becomes the default (null) string. -/
def ODPIStr.fromOption (opt_s : Option String) : ODPIStr :=
  match opt_s with
  | some s => ODPIStr.fromStr s
  | none => ODPIStr.defaultVal

/-- `impl From<ODPIStr> for String`: a null pointer yields `""`, otherwise the `len` bytes at
`ptr` are decoded with `from_utf8_lossy`.  In this embedding `ptr` abstracts the whole pointed
region and every write site stores its exact byte length, so the decode returns the pointed
string itself. -/
def ODPIStr.intoString (s : ODPIStr) : String :=
  match s.ptr with
  | none => ""
  | some str => str

/-- Modelled from the spec: the crate's `error` module (an `error_chain` module that is not in
the published sources).  The first three constructors are the `NativeCallFailed{operation}`
kinds applied at every visible call site (`ErrorKind::Connection/Statement/Var` carrying the
native function name); `txnId`/`branchId` are the kinds raised by the XID length checks; and
`indexOutOfRange`/`invalidArgument` stand for the specification's `IndexOutOfRange` and
`InvalidArgument{reason}` taxonomy classes so that claims naming them can be stated. -/
inductive ErrorKind where
  | connection : String → ErrorKind
  | statement : String → ErrorKind
  | var : String → ErrorKind
  | txnId : ErrorKind
  | branchId : ErrorKind
  | indexOutOfRange : ErrorKind
  | invalidArgument : String → ErrorKind
  deriving DecidableEq

/-- Modelled from the spec: which `ErrorKind`s belong to the specification's argument-validation
class (`InvalidArgument{reason}`, including its out-of-range-index and 64-byte-XID examples,
and `IndexOutOfRange`), as opposed to the `NativeCallFailed{operation}` kinds that carry the
name of a failing native function. -/
def ErrorKind.isInvalidArgumentClass : ErrorKind → Bool
  | .txnId => true
  | .branchId => true
  | .indexOutOfRange => true
  | .invalidArgument _ => true
  | _ => false

/-- The crate's `Result<T>` alias. -/
abbrev MResult (α : Type) : Type := Except ErrorKind α

/-- Modelled from the spec: the `try_dpi!` macro (its `macros.rs` is not in the published
sources).  It runs a native call, evaluates the success branch when the call reports
`DPI_SUCCESS` (status 0) and otherwise produces the given `NativeCallFailed`-class kind. -/
def tryDpi {α : Type} (status : Int) (ok : MResult α) (err : ErrorKind) : MResult α :=
  if status = 0 then ok else .error err

/-- `ODPITimestamp` (src/src/odpi/structs.rs): the fixed-layout native timestamp struct.
`fsecond` is documented in the source as "the fractional seconds for the timestamp, in
nanoseconds". -/
structure ODPITimestamp where
  year : Int
  month : Nat
  day : Nat
  hour : Nat
  minute : Nat
  second : Nat
  fsecond : Nat
  tzHourOffset : Int
  tzMinuteOffset : Int
  deriving DecidableEq

/-- `ODPIBytes` (src/src/odpi/structs.rs): pointer, `u32` byte length and encoding pointer. -/
structure ODPIBytes where
  ptr : Option String
  length : Nat
  encoding : Option String
  deriving DecidableEq

/-- The members of the untagged union `ODPIDataValueUnion` used by the claims, modelled as a
record.  Reading a member other than the one last written reinterprets the union's bytes in
the original; that aliasing is not modelled — the claims only ever read the member that was
written (or the initial value).  The remaining members (`as_int_64`, `as_uint_64`, `as_float`,
`as_double`, `as_object`, `as_stmt`, `as_rowid`, `as_interval_ds`, `as_interval_ym`) are
elided because no claim touches them. -/
structure ODPIDataValueUnion where
  asBoolean : Int
  asBytes : ODPIBytes
  asTimestamp : ODPITimestamp
  asLob : Option Nat
  deriving DecidableEq

/-- The zero-initialized union value (`ODPIDataValueUnion { as_boolean: 0 }`). -/
def ODPIDataValueUnion.zero : ODPIDataValueUnion :=
  { asBoolean := 0
    asBytes := { ptr := none, length := 0, encoding := none }
    asTimestamp := { year := 0, month := 0, day := 0, hour := 0, minute := 0, second := 0,
                     fsecond := 0, tzHourOffset := 0, tzMinuteOffset := 0 }
    asLob := none }

/-- `ODPIData` (src/src/odpi/structs.rs): null flag plus value union. -/
structure ODPIData where
  isNull : Int
  value : ODPIDataValueUnion
  deriving DecidableEq

/-- `impl Default for ODPIData`: null, zero union. -/
def ODPIData.defaultVal : ODPIData :=
  { isNull := 1, value := ODPIDataValueUnion.zero }

/-- `Data::get_string` (src/mimir/src/data/mod.rs): reads the union's `as_bytes` member and
decodes its `(ptr, length)` slice into a `String`. -/
def Data.get_string (dat : ODPIData) : String :=
  let odpi_bytes := dat.value.asBytes
  let odpi_s := ODPIStr.new odpi_bytes.ptr odpi_bytes.length
  odpi_s.intoString

/-- `Data::set_string` (src/mimir/src/data/mod.rs).  The Rust reads
`let mut bytes = (*self.inner).value.as_bytes;` — `ODPIBytes` is `Copy`, so this copies the
union member into a local — and then assigns `bytes.ptr`/`bytes.length` on that local.  The
union behind the pointer is never written, so the function returns the data unchanged; the
discarded local is kept here to mirror the source. -/
def Data.set_string (dat : ODPIData) (val : String) : ODPIData :=
  let val_s := ODPIStr.fromStr val
  let bytes := dat.value.asBytes
  let _bytes := { bytes with ptr := val_s.ptr, length := val_s.len }
  dat

/-- Model of a chrono `DateTime<Utc>` as produced by this crate: either `Utc::now()` (a
nondeterministic "current time", kept abstract as one distinguished value) or a civil
date-time whose sub-second part is stored in nanoseconds, exactly as chrono stores it. -/
inductive ChronoUtc where
  | now : ChronoUtc
  | civil (year : Int) (month day hour minute second nano : Nat) : ChronoUtc
  deriving DecidableEq

/-- The proleptic-Gregorian leap-year rule used by chrono's calendar validation. -/
def isLeapYear (y : Int) : Bool :=
  (y % 4 == 0 && y % 100 != 0) || (y % 400 == 0)

/-- Days in a month of the proleptic Gregorian calendar. -/
def daysInMonth (y : Int) (m : Nat) : Nat :=
  if m = 2 then (if isLeapYear y then 29 else 28)
  else if m = 4 ∨ m = 6 ∨ m = 9 ∨ m = 11 then 30
  else 31

/-- chrono `Utc.ymd(y, m, d).and_hms_micro(h, mi, s, micro)`: panics — modelled as `none` —
unless the calendar date is valid and `h < 24`, `mi < 60`, `s < 60` and `micro ≤ 1_999_999`
(microsecond values of 1_000_000 and above encode a leap second).  On success chrono stores
`micro * 1000` nanoseconds. -/
def ymdAndHmsMicro (y : Int) (m d h mi s micro : Nat) : Option ChronoUtc :=
  if 1 ≤ m ∧ m ≤ 12 ∧ 1 ≤ d ∧ d ≤ daysInMonth y m ∧
     h < 24 ∧ mi < 60 ∧ s < 60 ∧ micro ≤ 1999999
  then some (.civil y m d h mi s (micro * 1000))
  else none

/-- chrono `Utc.ymd(y, m, d).and_hms_nano(h, mi, s, nano)`: as above with the sub-second
argument in nanoseconds, valid up to `1_999_999_999`. -/
def ymdAndHmsNano (y : Int) (m d h mi s nano : Nat) : Option ChronoUtc :=
  if 1 ≤ m ∧ m ≤ 12 ∧ 1 ≤ d ∧ d ≤ daysInMonth y m ∧
     h < 24 ∧ mi < 60 ∧ s < 60 ∧ nano ≤ 1999999999
  then some (.civil y m d h mi s nano)
  else none

/-- `impl From<ODPITimestamp> for DateTime<Utc>` (src/src/odpi/structs.rs): widens the fields,
computes `fs = timestamp.fsecond * 1000` in `u32` arithmetic, returns `Utc::now()` for the
sentinel `(year, month, day) = (-10100, 0, 0)`, and otherwise calls
`Utc.ymd(y, m, d).and_hms_micro(h, mm, s, fs)` — note that `fs` is passed as microseconds. -/
def odpiTimestampToDateTime (timestamp : ODPITimestamp) : Option ChronoUtc :=
  let y := timestamp.year
  let m := timestamp.month
  let d := timestamp.day
  let h := timestamp.hour
  let mm := timestamp.minute
  let s := timestamp.second
  let fs := timestamp.fsecond * 1000 % u32Mod
  if y = -10100 ∧ m = 0 ∧ d = 0 then some .now
  else ymdAndHmsMicro y m d h mm s fs

/-- `Data::get_utc` (src/mimir/src/data/mod.rs): reads the union's `as_timestamp` member and
calls `Utc.ymd(y, m, d).and_hms_nano(h, mi, s, fsecond)` — the fractional seconds are passed
directly as nanoseconds, and there is no sentinel branch. -/
def Data.get_utc (dat : ODPIData) : Option ChronoUtc :=
  let odpi_ts := dat.value.asTimestamp
  ymdAndHmsNano odpi_ts.year odpi_ts.month odpi_ts.day odpi_ts.hour odpi_ts.minute
    odpi_ts.second odpi_ts.fsecond

/-- The conversion claimed by the specification (for comparison with the source-translated
`odpiTimestampToDateTime`): the sentinel timestamp converts to the current time, and otherwise
`fsecond` — nanoseconds — is truncated to the host datetime's microsecond argument, i.e.
divided by 1000. -/
def specTimestampToDateTime (timestamp : ODPITimestamp) : Option ChronoUtc :=
  if timestamp.year = -10100 ∧ timestamp.month = 0 ∧ timestamp.day = 0 then some .now
  else ymdAndHmsMicro timestamp.year timestamp.month timestamp.day timestamp.hour
    timestamp.minute timestamp.second (timestamp.fsecond / 1000)

/-- Modelled from the spec: the state ODPI-C keeps for one refcounted handle.  The native
library owns the reference counter (the wrapper holds none); `freeCount` counts how many times
the resource has been freed, so "never double-frees" is expressible. -/
structure NativeHandle where
  refCount : Nat
  freeCount : Nat
  deriving DecidableEq

/-- Modelled from the spec: a `dpi*_addRef` native call.  A handle whose reference count has
already reached zero is no longer valid, so the call fails; otherwise the native-side counter
is incremented. -/
def nativeAddRef (h : NativeHandle) : NativeHandle × Int :=
  if h.refCount = 0 then (h, -1)
  else ({ h with refCount := h.refCount + 1 }, 0)

/-- Modelled from the spec: a `dpi*_release` native call.  "A count of the references is
maintained and when this count reaches zero, the memory associated with the [resource] is
freed" (source doc comments); releasing a handle whose count is already zero reports failure
and frees nothing. -/
def nativeRelease (h : NativeHandle) : NativeHandle × Int :=
  if h.refCount = 0 then (h, -1)
  else if h.refCount = 1 then ({ refCount := 0, freeCount := h.freeCount + 1 }, 0)
  else ({ h with refCount := h.refCount - 1 }, 0)

/-- `Statement` (src/src/statement/mod.rs) wraps one `*mut ODPIStmt`; the fields model the
native statement object behind the pointer: its refcount state, whether it was created
scrollable, and its actual bind-placeholder names (the native library derives these from the
SQL text; that parsing is not modelled, so statements are quantified over this field). -/
structure Statement where
  handle : NativeHandle
  scrollable : Bool
  bindNames : List String
  deriving DecidableEq

/-- `Var` (src/src/variable/mod.rs) wraps one `*mut ODPIVar`; the fields model the native
variable object: refcount state, the number of allocated elements (`max_array_size` at
creation) and the backing `ODPIData` array. -/
structure Var where
  handle : NativeHandle
  numElements : Nat
  cells : List ODPIData
  deriving DecidableEq

/-- `Statement::release` (src/src/statement/mod.rs): forwards to `dpiStmt_release` and maps a
failing status to `ErrorKind::Statement("dpiStmt_release")`. -/
def Statement.release (st : Statement) : Statement × MResult Unit :=
  let (h, status) := nativeRelease st.handle
  ({ st with handle := h }, tryDpi status (.ok ()) (.statement "dpiStmt_release"))

/-- `Var::release` (src/src/variable/mod.rs): forwards to `dpiVar_release` and maps a failing
status to `ErrorKind::Var("dpiVar_release")`. -/
def Var.release (v : Var) : Var × MResult Unit :=
  let (h, status) := nativeRelease v.handle
  ({ v with handle := h }, tryDpi status (.ok ()) (.var "dpiVar_release"))

/-- `ODPIOracleTypeNum` (src/src/odpi/enums.rs): the ABI-fixed oracle type enumeration; the
numeric discriminants 2000–2027 carried by the source are elided because no claim reads them. -/
inductive ODPIOracleTypeNum where
  | TypeNone | Varchar | NVarchar | Char | NChar | RowID | Raw | NativeFloat | NativeDouble
  | NativeInt | Number | Date | Timestamp | TimestampTz | TimestampLtz | IntervalDS
  | IntervalYM | Clob | NClob | Blob | BFile | Stmt | Boolean | Object | LongVarchar
  | LongRaw | NativeUint | Max
  deriving DecidableEq

/-- `ODPINativeTypeNum` (src/src/odpi/enums.rs): the ABI-fixed native type enumeration;
discriminants 3000–3012 elided as above. -/
inductive ODPINativeTypeNum where
  | Invalid | Int64 | Uint64 | Float | Double | Bytes | Timestamp | IntervalDS | IntervalYM
  | Lob | Object | Stmt | Boolean | Rowid
  deriving DecidableEq

/-- `Lob` wraps one `*mut ODPILob`; the pointer is kept as an opaque identifier. -/
structure Lob where
  inner : Nat
  deriving DecidableEq

/-- One invocation of a native ODPI-C function, with the arguments the wrapper forwarded.
Connection operations below return the list of native calls they made, so "no native call is
made" and "the forwarded value" are expressible. -/
inductive NativeCall where
  | beginDistribTrans (formatId : Int) (txnId branchId : ODPIStr)
  | newTempLob (lobType : ODPIOracleTypeNum)
  | prepareStmt (scrollable : Int) (sql tag : ODPIStr)
  deriving DecidableEq

/-- Modelled from the spec: `dpiConn_beginDistribTrans`.  Its outcome depends on the database;
it is modelled as reporting success, since the claims about it concern only whether and when
it is invoked. -/
def dpiConn_beginDistribTrans (_formatId : Int) (_txnId _branchId : ODPIStr) : Int := 0

/-- `Connection::begin_distrib_trans` (src/mimir/src/connection/mod.rs): builds the two
`ODPIStr`s, rejects a transaction id longer than 64 bytes with `ErrorKind::TxnId` and a branch
id longer than 64 bytes with `ErrorKind::BranchId`, and only otherwise invokes the native
begin call.  The first component of the result is the trace of native calls made. -/
def Connection.begin_distrib_trans (formatId : Int) (txnId branchId : String) :
    List NativeCall × MResult Unit :=
  let txn_id_s := ODPIStr.fromStr txnId
  let branch_id_s := ODPIStr.fromStr branchId
  if txn_id_s.len > 64 then ([], .error .txnId)
  else if branch_id_s.len > 64 then ([], .error .branchId)
  else
    let status := dpiConn_beginDistribTrans formatId txn_id_s branch_id_s
    ([.beginDistribTrans formatId txn_id_s branch_id_s],
     tryDpi status (.ok ()) (.connection "dpiConn_beginDistribTrans"))

/-- Modelled from the spec: `dpiConn_newTempLob` creates a temporary LOB and reports success;
the returned pointer is a fresh opaque identifier. -/
def dpiConn_newTempLob (_lobType : ODPIOracleTypeNum) : Int × Lob := (0, { inner := 1 })

/-- `Connection::new_temp_lob` (src/mimir/src/connection/mod.rs): matches the requested type
and returns `ErrorKind::Connection("invalid oracle type")` for anything other than `Clob`,
`NClob` or `Blob` before any native call; for those three it invokes the native
temporary-LOB creation. -/
def Connection.new_temp_lob (lob_type : ODPIOracleTypeNum) : List NativeCall × MResult Lob :=
  match lob_type with
  | .Clob | .NClob | .Blob =>
    let (status, lob_ptr) := dpiConn_newTempLob lob_type
    ([.newTempLob lob_type], tryDpi status (.ok lob_ptr) (.connection "dpiConn_newTempLob"))
  | _ => ([], .error (.connection "invalid oracle type"))

/-- Modelled from the spec: `dpiConn_newVar` requires `max_array_size >= 1` (spec §4.3) and on
success allocates a variable whose backing array holds exactly `max_array_size` zero-initialized
`ODPIData` cells, returning one creation reference.  On failure the out-pointer is left null
(modelled by also returning the failing status). -/
def dpiConn_newVar (maxArraySize : Nat) : Int × Var :=
  if maxArraySize = 0 then (-1, { handle := { refCount := 0, freeCount := 0 },
                                  numElements := 0, cells := [] })
  else (0, { handle := { refCount := 1, freeCount := 0 },
             numElements := maxArraySize,
             cells := List.replicate maxArraySize ODPIData.defaultVal })

/-- `Connection::new_var` (src/mimir/src/connection/mod.rs): converts the two boolean flags to
ints and forwards everything to `dpiConn_newVar`; only `max_array_size` affects the modelled
native allocation.  A failing status maps to `ErrorKind::Connection("dpiConn_newVar")`. -/
def Connection.new_var (_oracle_type_num : ODPIOracleTypeNum)
    (_native_type_num : ODPINativeTypeNum) (max_array_size : Nat) (_size : Nat)
    (size_is_bytes : Bool) (is_array : Bool) : MResult Var :=
  let _sib : Nat := if size_is_bytes then 1 else 0
  let _ia : Nat := if is_array then 1 else 0
  let (status, var_ptr) := dpiConn_newVar max_array_size
  tryDpi status (.ok var_ptr) (.connection "dpiConn_newVar")

/-- `Statement::new(stmt_ptr)`: wraps whatever pointer the native call produced; a null
pointer wraps to a null statement object. -/
def Statement.mkFromPtr (stmt_ptr : Option Statement) : Statement :=
  match stmt_ptr with
  | some st => st
  | none => { handle := { refCount := 0, freeCount := 0 }, scrollable := false, bindNames := [] }

/-- Modelled from the spec: `dpiConn_prepareStmt`.  "Exactly one of `sql` or `tag` may be
omitted, never both" (spec §4.4): with both null the native call fails and leaves the
out-pointer null.  Otherwise it creates a statement with one reference whose scrollability is
the truth value of the forwarded `scrollable` int (nonzero = scrollable); the native
bind-name parsing of the SQL text is not modelled (the new statement has no bind names). -/
def dpiConn_prepareStmt (scrollable : Int) (sql tag : ODPIStr) : Int × Option Statement :=
  if sql.ptr = none ∧ tag.ptr = none then (-1, none)
  else (0, some { handle := { refCount := 1, freeCount := 0 },
                  scrollable := scrollable ≠ 0, bindNames := [] })

/-- `Connection::prepare_stmt` (src/mimir/src/connection/mod.rs): builds the `ODPIStr`s from
the optional sql and tag, computes `let scroll_i = if scrollable { 0 } else { 1 };` exactly as
the source does, forwards everything to the native prepare call and wraps the out-pointer on
success.  The first component is the trace of native calls with the forwarded arguments. -/
def Connection.prepare_stmt (sql tag : Option String) (scrollable : Bool) :
    List NativeCall × MResult Statement :=
  let sql_s := ODPIStr.fromOption sql
  let tag_s := ODPIStr.fromOption tag
  let scroll_i : Int := if scrollable then 0 else 1
  let (status, stmt_ptr) := dpiConn_prepareStmt scroll_i sql_s tag_s
  ([.prepareStmt scroll_i sql_s tag_s],
   tryDpi status (.ok (Statement.mkFromPtr stmt_ptr)) (.connection "dpiConn_prepareStmt"))

/-- Modelled from the spec: `dpiStmt_getBindNames` with the caller-provided capacity and
name/length arrays (initialized by the wrapper).  "`get_bind_names(expected_count)` must
tolerate the native call returning fewer names than `expected_count`" (spec §4.4): when the
statement's actual bind names fit in the capacity the call succeeds, overwriting only the
first `actual_count` slots with the names and their byte lengths and leaving the remaining
slots as the caller initialized them; a capacity smaller than the actual count fails. -/
def dpiStmt_getBindNames (st : Statement) (numBindNames : Nat)
    (namesVec : List (Option String)) (namesLenVec : List Nat) :
    Int × List (Option String) × List Nat :=
  if st.bindNames.length ≤ numBindNames then
    (0,
     st.bindNames.map some ++ namesVec.drop st.bindNames.length,
     st.bindNames.map (fun n => n.utf8ByteSize % u32Mod) ++ namesLenVec.drop st.bindNames.length)
  else (-1, namesVec, namesLenVec)

/-- `Statement::get_bind_names` (src/src/statement/mod.rs): allocates `num_bind_names` slots
initialized to `(null, 0)`, invokes the native call, and on success — after the (always true)
length check on the two vectors — converts every slot through `ODPIStr::new(..).into()`, so
null slots decode to `""`. -/
def Statement.get_bind_names (st : Statement) (num_bind_names : Nat) :
    MResult (List String) :=
  let names_vec : List (Option String) := List.replicate num_bind_names none
  let names_len_vec : List Nat := List.replicate num_bind_names 0
  match dpiStmt_getBindNames st num_bind_names names_vec names_len_vec with
  | (status, names_vec2, names_len_vec2) =>
    tryDpi status
      (if names_vec2.length = names_len_vec2.length then
        .ok ((names_vec2.zip names_len_vec2).map
          (fun p => (ODPIStr.new p.1 p.2).intoString))
      else .error (.statement ""))
      (.statement "dpiStmt_getBindNames")

/-- Modelled from the spec: `dpiVar_getData` returns the variable's element count and a
pointer to its backing `ODPIData` array (the allocation made at creation). -/
def dpiVar_getData (v : Var) : Int × Nat × Option (List ODPIData) :=
  (0, v.numElements, some v.cells)

/-- `Var::get_data` (src/src/variable/mod.rs): invokes the native call; a null array pointer
or a zero element count yields `Ok(&mut [])`, otherwise the slice of `num_elements` elements
at the returned pointer. -/
def Var.get_data (v : Var) : MResult (List ODPIData) :=
  match dpiVar_getData v with
  | (status, num_elements, data_arr_ptr) =>
    tryDpi status
      (match data_arr_ptr with
       | none => .ok []
       | some arr => if num_elements = 0 then .ok [] else .ok (arr.take num_elements))
      (.var "dpiVar_getData")

/-- The `ODPIData` cell the native library stores for `dpiVar_setFromBytes`: non-null, with
the bytes member pointing at the copied value. -/
def bytesCell (value : ODPIStr) : ODPIData :=
  { isNull := 0,
    value := { ODPIDataValueUnion.zero with
                 asBytes := { ptr := value.ptr, length := value.len, encoding := none } } }

/-- The `ODPIData` cell the native library stores for `dpiVar_setFromLob`: non-null, holding
the LOB reference. -/
def lobCell (lob : Lob) : ODPIData :=
  { isNull := 0, value := { ODPIDataValueUnion.zero with asLob := some lob.inner } }

/-- Modelled from the spec: `dpiVar_setFromBytes`.  "If the position exceeds the number of
elements allocated by the variable an error is returned" (source doc comment); otherwise the
value's bytes are copied into the cell at `pos`. -/
def dpiVar_setFromBytes (v : Var) (pos : Nat) (value : ODPIStr) : Var × Int :=
  if pos < v.numElements then ({ v with cells := v.cells.set pos (bytesCell value) }, 0)
  else (v, -1)

/-- Modelled from the spec: `dpiVar_setFromLob`, with the same position rule. -/
def dpiVar_setFromLob (v : Var) (pos : Nat) (lob : Lob) : Var × Int :=
  if pos < v.numElements then ({ v with cells := v.cells.set pos (lobCell lob) }, 0)
  else (v, -1)

/-- `Var::set_from_bytes` (src/src/variable/mod.rs): builds the `ODPIStr` for the value,
invokes the native call and maps a failing status to `ErrorKind::Var("dpiVar_setFromBytes")`. -/
def Var.set_from_bytes (v : Var) (pos : Nat) (value : String) : Var × MResult Unit :=
  let value_s := ODPIStr.fromStr value
  let (v2, status) := dpiVar_setFromBytes v pos value_s
  (v2, tryDpi status (.ok ()) (.var "dpiVar_setFromBytes"))

/-- `Var::set_from_lob` (src/src/variable/mod.rs): invokes the native call and maps a failing
status to `ErrorKind::Var("dpiVar_setFromLob")`. -/
def Var.set_from_lob (v : Var) (pos : Nat) (lob : Lob) : Var × MResult Unit :=
  let (v2, status) := dpiVar_setFromLob v pos lob
  (v2, tryDpi status (.ok ()) (.var "dpiVar_setFromLob"))

/-- A native timestamp with an ordinary date and `fsecond = 123456` nanoseconds (123.456 µs). -/
def tsFrac : ODPITimestamp :=
  { year := 2012, month := 6, day := 15, hour := 10, minute := 20, second := 30,
    fsecond := 123456, tzHourOffset := 0, tzMinuteOffset := 0 }

/-- The sentinel "all-zero/invalid" timestamp: year -10100, month 0, day 0. -/
def tsSentinel : ODPITimestamp :=
  { year := -10100, month := 0, day := 0, hour := 0, minute := 0, second := 0,
    fsecond := 0, tzHourOffset := 0, tzMinuteOffset := 0 }

/-- A data cell holding the sentinel timestamp. -/
def sentinelData : ODPIData :=
  { isNull := 0, value := { ODPIDataValueUnion.zero with asTimestamp := tsSentinel } }

/-- A statement handle whose last reference has already been released (refcount zero, freed
once). -/
def stmtReleased : Statement :=
  { handle := { refCount := 0, freeCount := 1 }, scrollable := false, bindNames := [] }

/-- A variable handle whose last reference has already been released. -/
def varReleased : Var :=
  { handle := { refCount := 0, freeCount := 1 }, numElements := 0, cells := [] }

/-- A live statement with two bind placeholders. -/
def stmtTwoBinds : Statement :=
  { handle := { refCount := 1, freeCount := 0 }, scrollable := false,
    bindNames := [":a", ":b"] }

/-- A live variable created with `max_array_size = 2`. -/
def varTwo : Var :=
  { handle := { refCount := 1, freeCount := 0 }, numElements := 2,
    cells := List.replicate 2 ODPIData.defaultVal }

/-- The variable allocated by a successful `new_var` with `max_array_size = 5`. -/
def varFive : Var :=
  { handle := { refCount := 1, freeCount := 0 }, numElements := 5,
    cells := List.replicate 5 ODPIData.defaultVal }

/-- A 65-byte id, one byte over the fixed 64-byte XID field. -/
def xid65 : String := String.mk (List.replicate 65 (Char.ofNat 97))

theorem zip_replicate_pair {α β : Type} (a : α) (b : β) (k : Nat) :
    (List.replicate k a).zip (List.replicate k b) = List.replicate k (a, b) := by
  induction k with
  | zero => rfl
  | succ k ih => simp [List.replicate_succ, ih]

theorem map_eval_id {α : Type} (f : α → α) (h : ∀ a, f a = a) (l : List α) :
    l.map f = l := by
  induction l with
  | nil => rfl
  | cons a t ih => simp [h, ih]

/-- Claim C1: the spec claims that writing a string into a cell via `set_string` and reading
it back yields the written string (up to the configured capacity, beyond which
`InvalidArgument` is expected).  The code drops the write: `Data::set_string` copies the
`Copy` union member `as_bytes` into a local (`let mut bytes = ... value.as_bytes;`) and
mutates only that local, so the cell is unchanged — proved here by showing `set_string` is the
identity on the data and that the round trip on a fresh cell returns `""`, not the written
`"a"`.  (`set_string` returns `()`, so no capacity error path exists either.) -/
theorem data_set_string_write_is_dropped :
    (∀ (dat : ODPIData) (val : String), Data.set_string dat val = dat) ∧
    Data.get_string (Data.set_string ODPIData.defaultVal "a") = "" ∧
    ("" : String) ≠ "a" :=
  ⟨fun _ _ => rfl, rfl, by decide⟩

/-- Claim C2: once a handle's reference count has reached zero, one more `release()` fails
cleanly — it returns the `NativeCallFailed`-class error of the release operation and leaves
the handle state (including how often the resource has been freed) unchanged, for both the
statement and the variable handle kinds. -/
theorem release_after_refcount_zero_fails_cleanly (st : Statement) (v : Var)
    (hs : st.handle.refCount = 0) (hv : v.handle.refCount = 0) :
    Statement.release st = (st, .error (.statement "dpiStmt_release")) ∧
    Var.release v = (v, .error (.var "dpiVar_release")) := by
  constructor <;>
    simp [Statement.release, Var.release, nativeRelease, tryDpi, hs, hv]

theorem release_after_refcount_zero_fails_cleanly_witness :
    Statement.release stmtReleased = (stmtReleased, .error (.statement "dpiStmt_release")) ∧
    Var.release varReleased = (varReleased, .error (.var "dpiVar_release")) :=
  release_after_refcount_zero_fails_cleanly stmtReleased varReleased rfl rfl

/-- Claim C3: the spec claims the timestamp conversion treats `fsecond` as nanoseconds
truncated to the host precision.  The code instead computes `fsecond * 1000` and passes it as
the microsecond argument: for `fsecond = 123456` ns the conversion panics (123_456_000 is not
a valid microsecond value), where the claimed treatment yields 123 µs; the sentinel branch of
the same conversion does hold; and the companion `Data::get_utc` passes `fsecond` correctly
as nanoseconds but has no sentinel branch, so it panics on the sentinel timestamp. -/
theorem timestamp_conversion_fsecond_bug :
    odpiTimestampToDateTime tsFrac = none ∧
    specTimestampToDateTime tsFrac = some (.civil 2012 6 15 10 20 30 123000) ∧
    odpiTimestampToDateTime tsSentinel = some .now ∧
    Data.get_utc sentinelData = none := by
  refine ⟨by decide, by decide, by decide, by decide⟩

/-- Claim C4: the spec claims `prepare` with `scrollable = true` forwards a nonzero scrollable
indicator, producing a scrollable statement.  The code computes
`let scroll_i = if scrollable { 0 } else { 1 };` — inverted — so `scrollable = true` forwards
0 and yields a non-scrollable statement, and `scrollable = false` forwards 1 and yields a
scrollable one. -/
theorem prepare_stmt_scrollable_inverted :
    Connection.prepare_stmt (some "select 1 from dual") none true =
      ([.prepareStmt 0 (ODPIStr.fromStr "select 1 from dual") ODPIStr.defaultVal],
       .ok { handle := { refCount := 1, freeCount := 0 }, scrollable := false,
             bindNames := [] }) ∧
    Connection.prepare_stmt (some "select 1 from dual") none false =
      ([.prepareStmt 1 (ODPIStr.fromStr "select 1 from dual") ODPIStr.defaultVal],
       .ok { handle := { refCount := 1, freeCount := 0 }, scrollable := true,
             bindNames := [] }) := by
  constructor <;> rfl

/-- Claim C5: `get_bind_names(expected_count)` tolerates the native call reporting fewer than
`expected_count` names: it succeeds, the first `actual_count` entries of the returned list are
exactly the statement's bind names, and the remaining entries are the `""` decodes of the
untouched null slots, not garbage names. -/
theorem get_bind_names_tolerates_fewer (st : Statement) (expected : Nat)
    (h : st.bindNames.length < expected) :
    Statement.get_bind_names st expected =
      .ok (st.bindNames ++ List.replicate (expected - st.bindNames.length) "") := by
  have hle : st.bindNames.length ≤ expected := Nat.le_of_lt h
  simp only [Statement.get_bind_names, dpiStmt_getBindNames, if_pos hle]
  simp only [tryDpi, if_pos rfl, List.drop_replicate]
  rw [if_pos (by simp)]
  rw [List.zip_append (by simp), zip_replicate_pair, List.map_append, List.zip_map']
  simp [ODPIStr.new, ODPIStr.intoString, Function.comp]
  exact map_eval_id _ (fun a => rfl) st.bindNames

theorem get_bind_names_tolerates_fewer_witness :
    Statement.get_bind_names stmtTwoBinds 4 = .ok [":a", ":b", "", ""] := by
  have h := get_bind_names_tolerates_fewer stmtTwoBinds 4 (by decide)
  rw [h]; rfl

/-- Claim C6 (counterexample): calling `prepare` with both `sql = None` and `tag = None` does
fail, but not with an `InvalidArgument`-class error as the claim states: the wrapper performs
no Some/None validation and the failure is the `NativeCallFailed`-class
`ErrorKind::Connection("dpiConn_prepareStmt")` from the forwarded native call. -/
theorem prepare_stmt_both_none_error_kind :
    (Connection.prepare_stmt none none false).2 =
      .error (.connection "dpiConn_prepareStmt") ∧
    ErrorKind.isInvalidArgumentClass (.connection "dpiConn_prepareStmt") = false :=
  ⟨rfl, rfl⟩

/-- Claim C6 (amended): `prepare` with both `sql = None` and `tag = None` is an error rather
than a successful preparation, but the wrapper forwards the two null strings to the native
prepare call (which rejects them) and surfaces the `NativeCallFailed`-class
`ErrorKind::Connection("dpiConn_prepareStmt")`, not a wrapper-side `InvalidArgument`. -/
theorem prepare_stmt_both_none_fails (scrollable : Bool) :
    Connection.prepare_stmt none none scrollable =
      ([.prepareStmt (if scrollable then 0 else 1) ODPIStr.defaultVal ODPIStr.defaultVal],
       .error (.connection "dpiConn_prepareStmt")) := by
  cases scrollable <;> rfl

/-- Claim C7: `begin_distrib_trans` rejects a transaction id longer than 64 bytes with
`ErrorKind::TxnId` and a branch id longer than 64 bytes with `ErrorKind::BranchId`, in both
cases before any native call is made (empty trace, no state change); when both ids are at
most 64 bytes the native begin call is invoked.  The byte lengths are assumed to fit the
`u32` length field of the ABI. -/
theorem begin_distrib_trans_xid_guard (formatId : Int) (txnId branchId : String)
    (htx : txnId.utf8ByteSize < u32Mod) (hbr : branchId.utf8ByteSize < u32Mod) :
    (64 < txnId.utf8ByteSize →
      Connection.begin_distrib_trans formatId txnId branchId = ([], .error .txnId)) ∧
    (txnId.utf8ByteSize ≤ 64 → 64 < branchId.utf8ByteSize →
      Connection.begin_distrib_trans formatId txnId branchId = ([], .error .branchId)) ∧
    (txnId.utf8ByteSize ≤ 64 → branchId.utf8ByteSize ≤ 64 →
      Connection.begin_distrib_trans formatId txnId branchId =
        ([.beginDistribTrans formatId (ODPIStr.fromStr txnId) (ODPIStr.fromStr branchId)],
         .ok ())) := by
  have etx : (ODPIStr.fromStr txnId).len = txnId.utf8ByteSize := Nat.mod_eq_of_lt htx
  have ebr : (ODPIStr.fromStr branchId).len = branchId.utf8ByteSize := Nat.mod_eq_of_lt hbr
  refine ⟨fun h1 => ?_, fun h1 h2 => ?_, fun h1 h2 => ?_⟩ <;>
    simp only [Connection.begin_distrib_trans, etx, ebr,
      dpiConn_beginDistribTrans, tryDpi]
  · rw [if_pos h1]
  · rw [if_neg (Nat.not_lt.mpr h1), if_pos h2]
  · rw [if_neg (Nat.not_lt.mpr h1), if_neg (Nat.not_lt.mpr h2)]
    rfl

theorem begin_distrib_trans_xid_guard_witness :
    Connection.begin_distrib_trans 1 xid65 "branch" = ([], .error .txnId) ∧
    Connection.begin_distrib_trans 1 "txn" xid65 = ([], .error .branchId) ∧
    Connection.begin_distrib_trans 1 "txn" "branch" =
      ([.beginDistribTrans 1 (ODPIStr.fromStr "txn") (ODPIStr.fromStr "branch")],
       .ok ()) :=
  ⟨(begin_distrib_trans_xid_guard 1 xid65 "branch" (by decide) (by decide)).1 (by decide),
   (begin_distrib_trans_xid_guard 1 "txn" xid65 (by decide) (by decide)).2.1
     (by decide) (by decide),
   (begin_distrib_trans_xid_guard 1 "txn" "branch" (by decide) (by decide)).2.2
     (by decide) (by decide)⟩

/-- Claim C8 (counterexample): writing at an out-of-range position does fail, but not with an
`IndexOutOfRange` error as the claim states: the out-of-range rejection comes from the native
call and the wrapper surfaces the `NativeCallFailed`-class
`ErrorKind::Var("dpiVar_setFromBytes")`, which is not the index/argument-validation class. -/
theorem set_from_bytes_out_of_range_error_kind :
    (Var.set_from_bytes varTwo 5 "x").2 = .error (.var "dpiVar_setFromBytes") ∧
    ErrorKind.var "dpiVar_setFromBytes" ≠ ErrorKind.indexOutOfRange ∧
    ErrorKind.isInvalidArgumentClass (.var "dpiVar_setFromBytes") = false :=
  ⟨rfl, by decide, rfl⟩

/-- Claim C8 (amended): for the cell-writing family (`set_from_bytes`, `set_from_lob`), a
position that is not strictly below the number of allocated elements (`max_array_size` at
creation) fails — with the `NativeCallFailed`-class `ErrorKind::Var` carrying the native
function name, the wrapper performing no position validation of its own — and leaves the
variable unchanged; a position strictly below it writes exactly that cell. -/
theorem set_from_family_position_guard (v : Var) (pos : Nat) (value : String) (lob : Lob) :
    (v.numElements ≤ pos →
      Var.set_from_bytes v pos value = (v, .error (.var "dpiVar_setFromBytes")) ∧
      Var.set_from_lob v pos lob = (v, .error (.var "dpiVar_setFromLob"))) ∧
    (pos < v.numElements →
      Var.set_from_bytes v pos value =
        ({ v with cells := v.cells.set pos (bytesCell (ODPIStr.fromStr value)) }, .ok ()) ∧
      Var.set_from_lob v pos lob =
        ({ v with cells := v.cells.set pos (lobCell lob) }, .ok ())) := by
  constructor
  · intro hle
    have hn : ¬ pos < v.numElements := Nat.not_lt.mpr hle
    constructor <;>
      simp [Var.set_from_bytes, Var.set_from_lob, dpiVar_setFromBytes, dpiVar_setFromLob,
        hn, tryDpi]
  · intro hlt
    constructor <;>
      simp [Var.set_from_bytes, Var.set_from_lob, dpiVar_setFromBytes, dpiVar_setFromLob,
        hlt, tryDpi]

theorem set_from_family_position_guard_witness :
    (Var.set_from_bytes varTwo 5 "x" = (varTwo, .error (.var "dpiVar_setFromBytes")) ∧
     Var.set_from_lob varTwo 5 { inner := 7 } =
       (varTwo, .error (.var "dpiVar_setFromLob"))) ∧
    (Var.set_from_bytes varTwo 1 "x" =
       ({ varTwo with
            cells := varTwo.cells.set 1 (bytesCell (ODPIStr.fromStr "x")) }, .ok ()) ∧
     Var.set_from_lob varTwo 1 { inner := 7 } =
       ({ varTwo with cells := varTwo.cells.set 1 (lobCell { inner := 7 }) }, .ok ())) :=
  ⟨(set_from_family_position_guard varTwo 5 "x" { inner := 7 }).1 (by decide),
   (set_from_family_position_guard varTwo 1 "x" { inner := 7 }).2 (by decide)⟩

/-- Claim C9: a successfully created variable with `max_array_size = N` (for any `N ≥ 1`)
yields a cell array of length exactly `N` from `get_data` — the modelled allocation is made at
creation and `get_data` re-reads it from the native call, as required after any reallocating
execute. -/
theorem new_var_cells_length (ot : ODPIOracleTypeNum) (nt : ODPINativeTypeNum)
    (N size : Nat) (sib ia : Bool) (v : Var) (hN : 1 ≤ N)
    (hv : Connection.new_var ot nt N size sib ia = .ok v) :
    ∃ cells, Var.get_data v = .ok cells ∧ cells.length = N := by
  have hN0 : N ≠ 0 := Nat.one_le_iff_ne_zero.mp hN
  simp [Connection.new_var, dpiConn_newVar, hN0, tryDpi] at hv
  subst hv
  exact ⟨List.replicate N ODPIData.defaultVal,
    by simp [Var.get_data, dpiVar_getData, hN0, List.take_replicate, tryDpi], by simp⟩

theorem new_var_cells_length_witness :
    (1 : Nat) ≤ 5 ∧
    Connection.new_var .Varchar .Bytes 5 256 false false = .ok varFive ∧
    ∃ cells, Var.get_data varFive = .ok cells ∧ cells.length = 5 :=
  ⟨by decide, rfl,
   new_var_cells_length .Varchar .Bytes 5 256 false false varFive (by decide) rfl⟩

/-- Claim C10: `new_temp_lob` with any oracle type other than `Clob`, `NClob` or `Blob`
returns an error with an empty native-call trace (no resource created, no state change);
for the three LOB types it invokes the native temporary-LOB creation. -/
theorem new_temp_lob_type_guard :
    (∀ t : ODPIOracleTypeNum, t ≠ .Clob → t ≠ .NClob → t ≠ .Blob →
      Connection.new_temp_lob t = ([], .error (.connection "invalid oracle type"))) ∧
    (∀ t : ODPIOracleTypeNum, t = .Clob ∨ t = .NClob ∨ t = .Blob →
      Connection.new_temp_lob t = ([.newTempLob t], .ok { inner := 1 })) := by
  constructor
  · intro t h1 h2 h3
    cases t <;> first | rfl | simp_all
  · rintro t (rfl | rfl | rfl) <;> rfl

theorem new_temp_lob_type_guard_witness :
    Connection.new_temp_lob .Varchar = ([], .error (.connection "invalid oracle type")) ∧
    Connection.new_temp_lob .Clob = ([.newTempLob .Clob], .ok { inner := 1 }) :=
  ⟨new_temp_lob_type_guard.1 .Varchar (by decide) (by decide) (by decide),
   new_temp_lob_type_guard.2 .Clob (Or.inl rfl)⟩

end Mimir
